import Mathlib

/-!
Shallow embedding of the DifyAgentPressureTest pressure-testing engine.

Sources embedded here:
 - `src/app/utils/pressure_test_util.py`: `extract_score_from_string`,
   `single_test_chatflow_non_stream_pressure`,
   `single_test_workflow_non_stream_pressure`.
 - `src/app/services/test_record_services.py`: the per-row success/failure
   accounting of `run_chatflow_tests_async` / `run_workflow_tests_async`
   (sequentialised for terminal runs without cancellation) and the
   result-aggregation step of the two wrapper functions.
 - `src/app/services/provider_model_services.py`: `llm_connection_test`.
 - `src/app/api/test_record_api.py`: the `run_record` start-request endpoint.

External effects (HTTP transport, `json.loads` of the agent response body,
the judge-LLM call chain, the tokenizer, the wall clock) are supplied as an
environment record: each field is the outcome of the single corresponding
external call made by the Python function.  Python numeric values are
rationals; Python exceptions are the `PyErr` error type of `Except`.
-/

/-- Minimal model of a Python value as produced by `json.loads`. -/
inductive JVal where
  | null
  | bool (b : Bool)
  | num (q : ℚ)
  | str (s : String)
  | arr (elems : List JVal)
  | obj (fields : List (String × JVal))

/-- The Python exceptions the embedded code can raise. -/
inductive PyErr where
  | zeroDivision
  | jsonDecode
  | keyError (k : String)
  | typeErr
  | valueError (msg : String)
  | transport (msg : String)
  deriving DecidableEq, Repr

/-- Python division: `a / b` raises `ZeroDivisionError` when `b == 0`
(also for floats: `1 / 0.0` raises, it does not produce inf/NaN). -/
def pyDiv (a b : ℚ) : Except PyErr ℚ :=
  if b = 0 then Except.error PyErr.zeroDivision else Except.ok (a / b)

/-- Python subscript `v[k]` with a string key: dict lookup (KeyError when the
key is absent), TypeError on any non-dict value. -/
def pyGetItem (v : JVal) (k : String) : Except PyErr JVal :=
  match v with
  | JVal.obj fields =>
    match fields.lookup k with
    | some x => Except.ok x
    | none => Except.error (PyErr.keyError k)
  | _ => Except.error PyErr.typeErr

/-- Python `str()` of a JSON value (nested containers abbreviated; the
rendered text is only fed to the tokenizer, whose output is an oracle,
so no claim observes it). -/
def pyStr : JVal → String
  | JVal.null => "None"
  | JVal.bool b => if b then "True" else "False"
  | JVal.num q => toString q
  | JVal.str s => s
  | JVal.arr _ => "list"
  | JVal.obj _ => "dict"

/-- Python string `<` (lexicographic on code points, a proper prefix is
smaller), on the underlying character lists. -/
def pyCharsLt : List Char → List Char → Bool
  | [], [] => false
  | [], _ :: _ => true
  | _ :: _, [] => false
  | a :: as, b :: bs =>
    if a.val < b.val then true
    else if b.val < a.val then false
    else pyCharsLt as bs

/-- Python `max` over a list of strings: the lexicographically greatest
element (first one on ties), `ValueError` on an empty list. -/
def pyMaxStr : List String → Except PyErr String
  | [] => Except.error (PyErr.valueError "max() arg is an empty sequence")
  | x :: xs =>
    Except.ok (xs.foldl (fun acc s => if pyCharsLt acc.data s.data then s else acc) x)

/-- Helper for `re.findall(r"\d+", s)`: collects maximal runs of decimal
digits, carrying the (reversed) current run. -/
def digitRunsAux : List Char → List Char → List (List Char)
  | [], acc => if acc.isEmpty then [] else [acc.reverse]
  | c :: cs, acc =>
    if c.isDigit then digitRunsAux cs (c :: acc)
    else if acc.isEmpty then digitRunsAux cs []
    else acc.reverse :: digitRunsAux cs []

/-- `re.findall(r"\d+", s)`: every maximal run of decimal digits in `s`,
in order of occurrence. -/
def digitRuns (s : String) : List String :=
  (digitRunsAux s.data []).map String.mk

/-- `pressure_test_util.extract_score_from_string`: scan a messy judge answer
with `re.findall(r"\d+", ...)` and return `{"score": max(numbers)}`.
`max` here is Python string max (lexicographic), and it raises `ValueError`
when the scan finds no digit run. -/
def extract_score_from_string (s : String) : Except PyErr JVal :=
  match pyMaxStr (digitRuns s) with
  | Except.ok m => Except.ok (JVal.obj [("score", JVal.str m)])
  | Except.error e => Except.error e

/-- Modelled from the spec (claim C5 wording): the FIRST integer-looking
substring of the raw judge output, for comparison with what the code does. -/
def firstDigitRun (s : String) : Option String :=
  (digitRuns s).head?

/-- Outcome of the `requests.post` call to the agent: either the transport
raised, or a response came back (its body is abstracted by `bodyParsed`). -/
inductive HttpOutcome where
  | err (msg : String)
  | ok
  deriving DecidableEq, Repr

/-- Outcome of the judge-LLM call chain
`llm_func(...)["json"]["choices"][0]["message"]["content"]`: either some step
raised, or it produced the raw content string. -/
inductive JudgeOutcome where
  | raise (e : PyErr)
  | content (raw : String)

/-- Environment of one single-row invocation: the outcome of each external
call the Python function makes, in particular
`bodyParsed` = outcome of `json.loads(response.text)` (deterministic in the
body, so reused by the exception handler of the workflow variant),
`judgeParsed` = outcome of `json.loads` on the cleaned judge content,
`tokens` = `len(tokenizer(answer)["input_ids"])`, and
`duration` = `end - start` around the agent call. -/
structure CallEnv where
  http : HttpOutcome
  bodyParsed : Option JVal
  refAnswer : String
  judge : JudgeOutcome
  judgeParsed : Option JVal
  tokens : ℕ
  duration : ℚ

/-- The scoring step shared by both variants when a reference answer is
present: call the judge, try `json.loads` on its content, and on parse
failure fall back to `extract_score_from_string`. -/
def judgeScore (env : CallEnv) : Except PyErr JVal :=
  match env.judge with
  | JudgeOutcome.raise e => Except.error e
  | JudgeOutcome.content raw =>
    match env.judgeParsed with
    | some v => Except.ok v
    | none => extract_score_from_string raw

/-- Chatflow scoring: `{"score": 100}` when the row has no reference answer,
otherwise the judge path. -/
def resolveScoreChatflow (env : CallEnv) : Except PyErr JVal :=
  if env.refAnswer.length = 0 then Except.ok (JVal.obj [("score", JVal.num 100)])
  else judgeScore env

/-- Workflow scoring: the source assigns the BARE integer `100` (not a dict)
when the row has no reference answer, otherwise the judge path. -/
def resolveScoreWorkflow (env : CallEnv) : Except PyErr JVal :=
  if env.refAnswer.length = 0 then Except.ok (JVal.num 100)
  else judgeScore env

/-- `len(tokenizer(answer, add_special_tokens=False)["input_ids"])`: the
token count is the oracle `tokens`; the tokenizer raises `TypeError` when the
answer value is not a string. -/
def tokenizeAnswer : JVal → ℕ → Except PyErr ℕ
  | JVal.str _, n => Except.ok n
  | _, _ => Except.error PyErr.typeErr

/-- The per-row result dict.  `generated_answer = none` models the key being
absent from the dict (the workflow variant never writes it). -/
structure RowMetrics where
  time_consumption : ℚ
  token_num : ℕ
  TPS : ℚ
  score : JVal
  generated_answer : Option String

/-- Body of the `try:` block of the chatflow variant: parse the response, read
`json_text["answer"]`, resolve the score, tokenize the answer (the tokenizer
raises TypeError on a non-string), compute `TPS = token_num /
time_consumption`, then read `sccore["score"]`. -/
def chatflowTry (env : CallEnv) : Except PyErr RowMetrics := do
  let body ← match env.bodyParsed with
    | some j => Except.ok j
    | none => Except.error PyErr.jsonDecode
  let answer ← pyGetItem body "answer"
  let sccore ← resolveScoreChatflow env
  let tokenCount ← tokenizeAnswer answer env.tokens
  let tps ← pyDiv tokenCount env.duration
  let scoreV ← pyGetItem sccore "score"
  Except.ok
    { time_consumption := env.duration
      token_num := tokenCount
      TPS := tps
      score := scoreV
      generated_answer := some (pyStr answer) }

/-- The dict the chatflow `except` handler returns: zeroed metrics but the
measured duration, with `generated_answer` present and empty. -/
def sentinelChatflow (d : ℚ) : RowMetrics :=
  { time_consumption := d
    token_num := 0
    TPS := 0
    score := JVal.num 0
    generated_answer := some "" }

/-- `pressure_test_util.single_test_chatflow_non_stream_pressure`.
The `requests.post` call sits OUTSIDE the `try:`, so a transport failure
propagates; every exception inside the `try:` is caught and turned into the
sentinel dict. -/
def single_test_chatflow_non_stream_pressure (env : CallEnv) : Except PyErr RowMetrics :=
  match env.http with
  | HttpOutcome.err m => Except.error (PyErr.transport m)
  | HttpOutcome.ok =>
    match chatflowTry env with
    | Except.ok r => Except.ok r
    | Except.error _ => Except.ok (sentinelChatflow env.duration)

/-- Body of the `try:` block of the workflow variant: parse the response, read
`str(json_text["data"]["outputs"])`, resolve the score, compute TPS, then
read `sccore["score"]`; the result dict never contains `generated_answer`. -/
def workflowTry (env : CallEnv) : Except PyErr RowMetrics := do
  let body ← match env.bodyParsed with
    | some j => Except.ok j
    | none => Except.error PyErr.jsonDecode
  let dataJ ← pyGetItem body "data"
  let outJ ← pyGetItem dataJ "outputs"
  let _answer := pyStr outJ
  let sccore ← resolveScoreWorkflow env
  let tps ← pyDiv env.tokens env.duration
  let scoreV ← pyGetItem sccore "score"
  Except.ok
    { time_consumption := env.duration
      token_num := env.tokens
      TPS := tps
      score := scoreV
      generated_answer := none }

/-- The dict the workflow `except` handler returns (reached only when the
response body re-parses as JSON): zeroed metrics, no `generated_answer`. -/
def sentinelWorkflow (d : ℚ) : RowMetrics :=
  { time_consumption := d
    token_num := 0
    TPS := 0
    score := JVal.num 0
    generated_answer := none }

/-- `pressure_test_util.single_test_workflow_non_stream_pressure`.
Transport failures propagate (the post is outside the `try:`); the `except`
handler FIRST calls `json.loads(response.text)` again, so when the body is
not valid JSON the handler itself raises `JSONDecodeError`; otherwise it
returns the sentinel dict, which lacks the `generated_answer` key. -/
def single_test_workflow_non_stream_pressure (env : CallEnv) : Except PyErr RowMetrics :=
  match env.http with
  | HttpOutcome.err m => Except.error (PyErr.transport m)
  | HttpOutcome.ok =>
    match workflowTry env with
    | Except.ok r => Except.ok r
    | Except.error _ =>
      match env.bodyParsed with
      | none => Except.error PyErr.jsonDecode
      | some _ => Except.ok (sentinelWorkflow env.duration)

/-- `str(e)` used by the service layer when it records a row error. -/
def pyErrMsg : PyErr → String
  | PyErr.zeroDivision => "division by zero"
  | PyErr.jsonDecode => "Expecting value"
  | PyErr.keyError k => k
  | PyErr.typeErr => "type error"
  | PyErr.valueError m => m
  | PyErr.transport m => m

/-- One element of the `all_results` list the coordinator collects: either a
metrics dict of a row, or the `{"index": ..., "error": ...}` record returned by
the exception handler of `_run_single`. -/
inductive ResRec where
  | metrics (m : RowMetrics)
  | errRec (msg : String)

/-- Per-row accounting of `run_chatflow_tests_async._run_single`
(sequentialised, no cancellation): an exception from the single test
increments the failure counter and yields an error record; a returned dict
increments the success counter and is then persisted — the persistence dict
reads `result["generated_answer"]`, so when that key is absent the `except`
handler ALSO increments the failure counter and yields an error record.
Result: `((success_increments, failure_increments), collected record)`. -/
def runRowChatflow (env : CallEnv) : (ℕ × ℕ) × ResRec :=
  match single_test_chatflow_non_stream_pressure env with
  | Except.error e => ((0, 1), ResRec.errRec (pyErrMsg e))
  | Except.ok m =>
    match m.generated_answer with
    | some _ => ((1, 0), ResRec.metrics m)
    | none => ((1, 1), ResRec.errRec (pyErrMsg (PyErr.keyError "generated_answer")))

/-- Per-row accounting of `run_workflow_tests_async._run_single`, same
structure as the chatflow one (its persistence dict also reads
`result["generated_answer"]`). -/
def runRowWorkflow (env : CallEnv) : (ℕ × ℕ) × ResRec :=
  match single_test_workflow_non_stream_pressure env with
  | Except.error e => ((0, 1), ResRec.errRec (pyErrMsg e))
  | Except.ok m =>
    match m.generated_answer with
    | some _ => ((1, 0), ResRec.metrics m)
    | none => ((1, 1), ResRec.errRec (pyErrMsg (PyErr.keyError "generated_answer")))

/-- A whole chatflow batch run to completion without cancellation: fold the
per-row accounting, accumulating the two run counters and the
`all_results` list. -/
def runChatflowBatch (envs : List CallEnv) : (ℕ × ℕ) × List ResRec :=
  envs.foldl
    (fun acc env =>
      let r := runRowChatflow env
      ((acc.1.1 + r.1.1, acc.1.2 + r.1.2), acc.2 ++ [r.2]))
    ((0, 0), [])

/-- A whole workflow batch run to completion without cancellation. -/
def runWorkflowBatch (envs : List CallEnv) : (ℕ × ℕ) × List ResRec :=
  envs.foldl
    (fun acc env =>
      let r := runRowWorkflow env
      ((acc.1.1 + r.1.1, acc.1.2 + r.1.2), acc.2 ++ [r.2]))
    ((0, 0), [])

/-- `ele.get("time_consumption")`: present on a metrics dict, `None` on an
error record. -/
def getTimeField : ResRec → Option ℚ
  | ResRec.metrics m => some m.time_consumption
  | ResRec.errRec _ => none

/-- `ele.get("token_num")` (as a rational, Python ints embed in ℚ). -/
def getTokenField : ResRec → Option ℚ
  | ResRec.metrics m => some (m.token_num : ℚ)
  | ResRec.errRec _ => none

/-- `ele.get("TPS")`. -/
def getTPSField : ResRec → Option ℚ
  | ResRec.metrics m => some m.TPS
  | ResRec.errRec _ => none

/-- `ele.get("score")`: the score can be a number or a string (from
`extract_score_from_string`), so it stays a `JVal`. -/
def getScoreField : ResRec → Option JVal
  | ResRec.metrics m => some m.score
  | ResRec.errRec _ => none

/-- Python `sum(...)` over the generator of `.get(...)` values: starts at 0
and raises `TypeError` at the first `None` it tries to add. -/
def pySumOpt : List (Option ℚ) → ℚ → Except PyErr ℚ
  | [], acc => Except.ok acc
  | none :: _, _ => Except.error PyErr.typeErr
  | some q :: rest, acc => pySumOpt rest (acc + q)

/-- Decimal value of a digit string. -/
def digitsVal (cs : List Char) : ℕ :=
  cs.foldl (fun acc c => 10 * acc + (c.toNat - '0'.toNat)) 0

/-- Python `float(x)`: numbers pass through, booleans coerce, a string of
decimal digits parses, everything else (including `None`) raises. -/
def pyFloat : Option JVal → Except PyErr ℚ
  | none => Except.error PyErr.typeErr
  | some (JVal.num q) => Except.ok q
  | some (JVal.bool b) => Except.ok (if b then 1 else 0)
  | some (JVal.str s) =>
    if s.data ≠ [] ∧ s.data.all Char.isDigit then Except.ok (digitsVal s.data : ℚ)
    else Except.error (PyErr.valueError s)
  | some _ => Except.error PyErr.typeErr

/-- `sum(float(ele.get("score")) for ele in results)` — the chatflow score
sum: each element is first converted with `float`, the first failing
conversion raises. -/
def pySumFloat : List (Option JVal) → ℚ → Except PyErr ℚ
  | [], acc => Except.ok acc
  | v :: rest, acc =>
    match pyFloat v with
    | Except.ok q => pySumFloat rest (acc + q)
    | Except.error e => Except.error e

/-- `sum(ele.get("score") for ele in results)` — the workflow score sum has
NO `float(...)` around the values: adding `None` or a string to the running
integer total raises `TypeError`. -/
def pySumRaw : List (Option JVal) → ℚ → Except PyErr ℚ
  | [], acc => Except.ok acc
  | some (JVal.num q) :: rest, acc => pySumRaw rest (acc + q)
  | some (JVal.bool b) :: rest, acc => pySumRaw rest (acc + if b then 1 else 0)
  | _ :: _, _ => Except.error PyErr.typeErr

/-- The run-level summary dict built by the wrapper functions. -/
structure RunSummary where
  avg_time_consumption : ℚ
  avg_token_num : ℚ
  avg_TPS : ℚ
  avg_score : ℚ

/-- Step 6 of `test_chatflow_non_stream_pressure_wrapper`: the averages and
the total over the collected `results` list, computed in source order
(`sum(...) / len(results)` for each field, `float(...)` around scores).
Returns the summary dict together with `total_time` (persisted as the
duration of the run). -/
def aggregateChatflowResults (results : List ResRec) : Except PyErr (RunSummary × ℚ) := do
  let sTime ← pySumOpt (results.map getTimeField) 0
  let avgTime ← pyDiv sTime results.length
  let totalTime ← pySumOpt (results.map getTimeField) 0
  let sTok ← pySumOpt (results.map getTokenField) 0
  let avgTok ← pyDiv sTok results.length
  let sTPS ← pySumOpt (results.map getTPSField) 0
  let avgTPS ← pyDiv sTPS results.length
  let sScore ← pySumFloat (results.map getScoreField) 0
  let avgScore ← pyDiv sScore results.length
  Except.ok
    ({ avg_time_consumption := avgTime
       avg_token_num := avgTok
       avg_TPS := avgTPS
       avg_score := avgScore }, totalTime)

/-- Step 8 of `test_workflow_non_stream_pressure_wrapper`: identical except
that the score sum has no `float(...)` conversion. -/
def aggregateWorkflowResults (results : List ResRec) : Except PyErr (RunSummary × ℚ) := do
  let sTime ← pySumOpt (results.map getTimeField) 0
  let avgTime ← pyDiv sTime results.length
  let totalTime ← pySumOpt (results.map getTimeField) 0
  let sTok ← pySumOpt (results.map getTokenField) 0
  let avgTok ← pyDiv sTok results.length
  let sTPS ← pySumOpt (results.map getTPSField) 0
  let avgTPS ← pyDiv sTPS results.length
  let sScore ← pySumRaw (results.map getScoreField) 0
  let avgScore ← pyDiv sScore results.length
  Except.ok
    ({ avg_time_consumption := avgTime
       avg_token_num := avgTok
       avg_TPS := avgTPS
       avg_score := avgScore }, totalTime)

/-- `models.test_record.TestStatus` (a str-enum; the endpoint compares it
against the literal enum values). -/
inductive TStatus where
  | init
  | running
  | cancelled
  | failed
  | success
  | experiment
  deriving DecidableEq, Repr

/-- `models.test_record.AgentType`. -/
inductive AType where
  | chatflow
  | workflow
  deriving DecidableEq, Repr

/-- The slice of a persisted `TestRecord` the `run_record` endpoint reads. -/
structure RecordState where
  status : TStatus
  agent_type : AType
  result : Option JVal

/-- Observable decision of the `run_record` endpoint. -/
inductive RunDecision where
  | notFound
  | runningRejection
  | storedResult (r : Option JVal)
  | cancelledRejection
  | scheduled (k : AType)

/-- `test_record_api.run_record`: 404 when the record is missing; a RUNNING
record is rejected; a SUCCESS record returns its stored result; a CANCELLED
record is rejected; otherwise the matching wrapper is scheduled as a
background task for the agent type of the record. -/
def run_record (rec : Option RecordState) : RunDecision :=
  match rec with
  | none => RunDecision.notFound
  | some r =>
    if r.status = TStatus.running then RunDecision.runningRejection
    else if r.status = TStatus.success then RunDecision.storedResult r.result
    else if r.status = TStatus.cancelled then RunDecision.cancelledRejection
    else RunDecision.scheduled r.agent_type

/-- The slice of a `ProviderModel` record the judge dispatcher reads, plus
the HTTP status the connectivity probe of its family would return (the outcome of
the one external `call_*` round trip made for this candidate). -/
structure ProviderModel where
  model_name : String
  provider_name : String
  endpointId : Option String
  probeStatus : ℕ
  deriving DecidableEq, Repr

/-- The three provider families `llm_connection_test` recognises. -/
inductive ScorerFamily where
  | dashscope
  | openaiCompatible
  | volcengineArk
  deriving DecidableEq, Repr

/-- Does `pat` occur at the head of `hay`? -/
def startsWithChars : List Char → List Char → Bool
  | [], _ => true
  | _ :: _, [] => false
  | a :: as, b :: bs => a == b && startsWithChars as bs

/-- Does `pat` occur anywhere in `hay`? -/
def containsChars : List Char → List Char → Bool
  | pat, [] => pat.isEmpty
  | pat, h :: t => startsWithChars pat (h :: t) || containsChars pat t

/-- Python `pat in hay` substring containment. -/
def containsSub (hay pat : String) : Bool :=
  containsChars pat.data hay.data

/-- Family classification of `llm_connection_test`, in source branch order:
"aliyun"/"bailian" in the provider name, then "openai", then
"volcengine"/"doubao" in the provider name or "ark.cn-beijing" in
`config.get("endpointId") or ""`. -/
def familyOf (c : ProviderModel) : Option ScorerFamily :=
  if containsSub c.provider_name "aliyun" || containsSub c.provider_name "bailian" then
    some ScorerFamily.dashscope
  else if containsSub c.provider_name "openai" then
    some ScorerFamily.openaiCompatible
  else if containsSub c.provider_name "volcengine" || containsSub c.provider_name "doubao"
      || containsSub (c.endpointId.getD "") "ark.cn-beijing" then
    some ScorerFamily.volcengineArk
  else
    none

/-- `llm_func.__name__` returned for each family. -/
def sendMessageName : ScorerFamily → String
  | ScorerFamily.dashscope => "send_message_aliyun_dashscope"
  | ScorerFamily.openaiCompatible => "send_message_openai_compatible"
  | ScorerFamily.volcengineArk => "send_message_volcengine_ark"

/-- The `{"llm_record": ..., "llm_func": ...}` dict the dispatcher returns
on success (`none` models the `""` returned when nothing binds). -/
structure ScorerHandle where
  llm_record : ProviderModel
  llm_func : String
  deriving DecidableEq, Repr

/-- `provider_model_services.llm_connection_test`: walk the candidates in
input order; an unrecognised family logs a warning and continues; a
recognised family is probed, and the first probe with status 200 binds the
candidate together with the send-message function name of its family; if the loop
falls through, the empty result is returned. -/
def llm_connection_test : List ProviderModel → Option ScorerHandle
  | [] => none
  | c :: rest =>
    match familyOf c with
    | none => llm_connection_test rest
    | some fam =>
      if c.probeStatus = 200 then some ⟨c, sendMessageName fam⟩
      else llm_connection_test rest

/-! ## Generic evaluation lemmas -/

theorem exceptBindOk {ε α β : Type} (a : α) (f : α → Except ε β) :
    (Except.ok a >>= f) = f a := rfl

theorem exceptBindErr {ε α β : Type} (e : ε) (f : α → Except ε β) :
    (Except.error e >>= f : Except ε β) = Except.error e := rfl

theorem pyDiv_zero (a : ℚ) : pyDiv a 0 = Except.error PyErr.zeroDivision := by
  simp [pyDiv]

theorem pyGetItem_single (k : String) (v : JVal) :
    pyGetItem (JVal.obj [(k, v)]) k = Except.ok v := by
  simp [pyGetItem, List.lookup]

/-! ## Helper lemmas about the single-row invocations -/

theorem chatflowTry_dur0 (env : CallEnv) (hd : env.duration = 0) :
    ∃ e, chatflowTry env = Except.error e := by
  unfold chatflowTry
  cases hb : env.bodyParsed with
  | none => exact ⟨PyErr.jsonDecode, by simp [exceptBindErr]⟩
  | some j =>
    cases ha : pyGetItem j "answer" with
    | error e => exact ⟨e, by simp [ha, exceptBindOk, exceptBindErr]⟩
    | ok answer =>
      cases hs : resolveScoreChatflow env with
      | error e => exact ⟨e, by simp [ha, hs, exceptBindOk, exceptBindErr]⟩
      | ok sccore =>
        cases ht : tokenizeAnswer answer env.tokens with
        | error e => exact ⟨e, by simp [ha, hs, ht, exceptBindOk, exceptBindErr]⟩
        | ok tc =>
          exact ⟨PyErr.zeroDivision, by
            simp [ha, hs, ht, hd, pyDiv_zero, exceptBindOk, exceptBindErr]⟩

theorem workflowTry_dur0 (env : CallEnv) (hd : env.duration = 0) :
    ∃ e, workflowTry env = Except.error e := by
  unfold workflowTry
  cases hb : env.bodyParsed with
  | none => exact ⟨PyErr.jsonDecode, by simp [exceptBindErr]⟩
  | some j =>
    cases h1 : pyGetItem j "data" with
    | error e => exact ⟨e, by simp [h1, exceptBindOk, exceptBindErr]⟩
    | ok d =>
      cases h2 : pyGetItem d "outputs" with
      | error e => exact ⟨e, by simp [h1, h2, exceptBindOk, exceptBindErr]⟩
      | ok o =>
        cases hs : resolveScoreWorkflow env with
        | error e => exact ⟨e, by simp [h1, h2, hs, exceptBindOk, exceptBindErr]⟩
        | ok sc =>
          exact ⟨PyErr.zeroDivision, by
            simp [h1, h2, hs, hd, pyDiv_zero, exceptBindOk, exceptBindErr]⟩

theorem single_chatflow_dur0 (env : CallEnv) (hd : env.duration = 0)
    (hh : env.http = HttpOutcome.ok) :
    single_test_chatflow_non_stream_pressure env = Except.ok (sentinelChatflow env.duration) := by
  obtain ⟨e, he⟩ := chatflowTry_dur0 env hd
  unfold single_test_chatflow_non_stream_pressure
  simp [hh, he]

theorem single_workflow_dur0 (env : CallEnv) (hd : env.duration = 0)
    (hh : env.http = HttpOutcome.ok) (j : JVal) (hb : env.bodyParsed = some j) :
    single_test_workflow_non_stream_pressure env = Except.ok (sentinelWorkflow env.duration) := by
  obtain ⟨e, he⟩ := workflowTry_dur0 env hd
  unfold single_test_workflow_non_stream_pressure
  simp [hh, he, hb]

theorem chatflow_error_transport (env : CallEnv) (e : PyErr)
    (h : single_test_chatflow_non_stream_pressure env = Except.error e) :
    ∃ m, e = PyErr.transport m := by
  unfold single_test_chatflow_non_stream_pressure at h
  cases hh : env.http with
  | err m =>
    rw [hh] at h
    simp at h
    exact ⟨m, h.symm⟩
  | ok =>
    rw [hh] at h
    cases hc : chatflowTry env <;> rw [hc] at h <;> simp at h

theorem workflow_error_shape (env : CallEnv) (e : PyErr)
    (h : single_test_workflow_non_stream_pressure env = Except.error e) :
    (∃ m, e = PyErr.transport m) ∨ e = PyErr.jsonDecode := by
  unfold single_test_workflow_non_stream_pressure at h
  cases hh : env.http with
  | err m =>
    rw [hh] at h
    simp at h
    exact Or.inl ⟨m, h.symm⟩
  | ok =>
    rw [hh] at h
    cases hc : workflowTry env with
    | ok r => rw [hc] at h; simp at h
    | error e2 =>
      rw [hc] at h
      cases hb : env.bodyParsed with
      | none => rw [hb] at h; simp at h; exact Or.inr h.symm
      | some j => rw [hb] at h; simp at h

/-! ## Claim C1 -/

/-- A workflow row whose agent call, judging and persistence inputs are all
well formed: valid JSON body with `data.outputs`, a reference answer, a judge
response that parses to a numeric score. -/
def envC1 : CallEnv :=
  { http := HttpOutcome.ok
    bodyParsed := some (JVal.obj [("data", JVal.obj [("outputs", JVal.str "out")])])
    refAnswer := "expected"
    judge := JudgeOutcome.content "score 95"
    judgeParsed := some (JVal.obj [("score", JVal.num 95)])
    tokens := 12
    duration := 3 }

/-- C1: the claim states every row of a batch executed without cancellation
increments exactly one of the two run counters exactly once, so the counter
sum never exceeds the number of rows attempted.  The code violates this: the
workflow result dict never contains `generated_answer`, so after the success
counter is incremented the persistence step raises `KeyError` and the
exception handler increments the failure counter as well.  Evaluating the
embedded code at a fully successful 1-row workflow batch: the single test
returns a complete metrics dict, yet the batch ends with `success_count = 1`
AND `failure_count = 1`, a counter sum of 2 for 1 attempted row. -/
theorem C1_workflow_row_double_increment :
    single_test_workflow_non_stream_pressure envC1 =
      Except.ok
        { time_consumption := 3, token_num := 12, TPS := (12 : ℚ) / 3,
          score := JVal.num 95, generated_answer := none } ∧
    (runWorkflowBatch [envC1]).1 = (1, 1) ∧
    [envC1].length = 1 :=
  ⟨rfl, rfl, rfl⟩

/-! ## Claim C2 -/

/-- A workflow row whose response body is not valid JSON and whose measured
duration is 0. -/
def envC2cex : CallEnv :=
  { http := HttpOutcome.ok
    bodyParsed := none
    refAnswer := ""
    judge := JudgeOutcome.content ""
    judgeParsed := none
    tokens := 0
    duration := 0 }

/-- C2 counterexample: the claim states that for EVERY row with measured
duration 0 the single-row invocation still returns a RowMetrics.  False for
the workflow variant: at this concrete input the duration is 0 and the
invocation raises a JSON parse error instead of returning. -/
theorem C2_duration_zero_counterexample :
    envC2cex.duration = 0 ∧
    single_test_workflow_non_stream_pressure envC2cex = Except.error PyErr.jsonDecode :=
  ⟨rfl, rfl⟩

/-- C2 amended: for a row with measured duration 0 whose agent call returned
a response, the chatflow invocation always returns a RowMetrics with
throughput 0, and the workflow invocation does so whenever its response body
is valid JSON (when the body is not valid JSON it raises a parse error, for
any duration); moreover a division error never escapes either variant -- the
only errors the chatflow invocation can raise are transport errors, and the
only errors the workflow invocation can raise are transport or JSON parse
errors -- so `token_count / time_consumption` never surfaces a
ZeroDivisionError and never produces NaN. -/
theorem C2_duration_zero_amended (env : CallEnv) (hd : env.duration = 0)
    (hh : env.http = HttpOutcome.ok) :
    (∃ m, single_test_chatflow_non_stream_pressure env = Except.ok m ∧ m.TPS = 0) ∧
    (∀ j, env.bodyParsed = some j →
      ∃ m, single_test_workflow_non_stream_pressure env = Except.ok m ∧ m.TPS = 0) ∧
    (∀ e, single_test_chatflow_non_stream_pressure env = Except.error e →
      ∃ m, e = PyErr.transport m) ∧
    (∀ e, single_test_workflow_non_stream_pressure env = Except.error e →
      (∃ m, e = PyErr.transport m) ∨ e = PyErr.jsonDecode) := by
  refine ⟨⟨sentinelChatflow env.duration, single_chatflow_dur0 env hd hh, rfl⟩, ?_, ?_, ?_⟩
  · intro j hb
    exact ⟨sentinelWorkflow env.duration, single_workflow_dur0 env hd hh j hb, rfl⟩
  · exact chatflow_error_transport env
  · exact workflow_error_shape env

/-- A chatflow row with a valid body and measured duration 0. -/
def envC2w : CallEnv :=
  { http := HttpOutcome.ok
    bodyParsed := some (JVal.obj [("answer", JVal.str "ok")])
    refAnswer := ""
    judge := JudgeOutcome.content ""
    judgeParsed := none
    tokens := 7
    duration := 0 }

/-- C2 witness: the amended theorem applied at a concrete duration-0 row. -/
theorem C2_duration_zero_witness :
    (∃ m, single_test_chatflow_non_stream_pressure envC2w = Except.ok m ∧ m.TPS = 0) ∧
    (∀ j, envC2w.bodyParsed = some j →
      ∃ m, single_test_workflow_non_stream_pressure envC2w = Except.ok m ∧ m.TPS = 0) ∧
    (∀ e, single_test_chatflow_non_stream_pressure envC2w = Except.error e →
      ∃ m, e = PyErr.transport m) ∧
    (∀ e, single_test_workflow_non_stream_pressure envC2w = Except.error e →
      (∃ m, e = PyErr.transport m) ∨ e = PyErr.jsonDecode) :=
  C2_duration_zero_amended envC2w rfl rfl

/-! ## Claim C4 -/

/-- A workflow row whose response body is not valid JSON (a parse failure),
with a nonzero measured duration. -/
def envC4cex : CallEnv :=
  { http := HttpOutcome.ok
    bodyParsed := none
    refAnswer := "r"
    judge := JudgeOutcome.content "8"
    judgeParsed := none
    tokens := 4
    duration := 3 }

/-- C4 counterexample: the claim states both variants RETURN a zeroed
RowMetrics on transport or parse failure.  False: at this concrete parse
failure the workflow invocation raises (its exception handler re-parses the
invalid body and the re-parse raises again). -/
theorem C4_parse_failure_counterexample :
    single_test_workflow_non_stream_pressure envC4cex = Except.error PyErr.jsonDecode := rfl

/-- C4 amended: on transport failure both variants raise (the HTTP post sits
outside the `try:`), and the service layer counts such a row as a failure;
on a response body that fails to parse, the chatflow variant returns the
zeroed RowMetrics with `generated_answer = ""` but the service layer counts
that row as a SUCCESS, while the workflow variant re-raises the parse error
and the row counts as a failure. -/
theorem C4_failure_paths_amended (env : CallEnv) :
    (∀ msg, env.http = HttpOutcome.err msg →
      single_test_chatflow_non_stream_pressure env = Except.error (PyErr.transport msg) ∧
      single_test_workflow_non_stream_pressure env = Except.error (PyErr.transport msg) ∧
      (runRowChatflow env).1 = (0, 1) ∧
      (runRowWorkflow env).1 = (0, 1)) ∧
    (env.http = HttpOutcome.ok → env.bodyParsed = none →
      single_test_chatflow_non_stream_pressure env = Except.ok (sentinelChatflow env.duration) ∧
      (runRowChatflow env).1 = (1, 0) ∧
      single_test_workflow_non_stream_pressure env = Except.error PyErr.jsonDecode ∧
      (runRowWorkflow env).1 = (0, 1)) := by
  constructor
  · intro msg hh
    have hc : single_test_chatflow_non_stream_pressure env
        = Except.error (PyErr.transport msg) := by
      unfold single_test_chatflow_non_stream_pressure
      simp [hh]
    have hw : single_test_workflow_non_stream_pressure env
        = Except.error (PyErr.transport msg) := by
      unfold single_test_workflow_non_stream_pressure
      simp [hh]
    refine ⟨hc, hw, ?_, ?_⟩
    · unfold runRowChatflow
      simp [hc]
    · unfold runRowWorkflow
      simp [hw]
  · intro hh hb
    have htry : chatflowTry env = Except.error PyErr.jsonDecode := by
      unfold chatflowTry
      simp [hb, exceptBindErr]
    have hc : single_test_chatflow_non_stream_pressure env
        = Except.ok (sentinelChatflow env.duration) := by
      unfold single_test_chatflow_non_stream_pressure
      simp [hh, htry]
    have hwtry : workflowTry env = Except.error PyErr.jsonDecode := by
      unfold workflowTry
      simp [hb, exceptBindErr]
    have hw : single_test_workflow_non_stream_pressure env
        = Except.error PyErr.jsonDecode := by
      unfold single_test_workflow_non_stream_pressure
      simp [hh, hwtry, hb]
    refine ⟨hc, ?_, hw, ?_⟩
    · unfold runRowChatflow
      simp [hc, sentinelChatflow]
    · unfold runRowWorkflow
      simp [hw]

/-- A row whose agent call raises a transport timeout. -/
def envC4err : CallEnv :=
  { http := HttpOutcome.err "timeout"
    bodyParsed := none
    refAnswer := ""
    judge := JudgeOutcome.content ""
    judgeParsed := none
    tokens := 0
    duration := 0 }

/-- A chatflow/workflow row whose response body is not valid JSON. -/
def envC4parse : CallEnv :=
  { http := HttpOutcome.ok
    bodyParsed := none
    refAnswer := ""
    judge := JudgeOutcome.content ""
    judgeParsed := none
    tokens := 2
    duration := 1 }

/-- C4 witness: the amended theorem applied at a concrete transport failure
and a concrete parse failure. -/
theorem C4_failure_paths_witness :
    single_test_chatflow_non_stream_pressure envC4err = Except.error (PyErr.transport "timeout") ∧
    (runRowChatflow envC4err).1 = (0, 1) ∧
    single_test_chatflow_non_stream_pressure envC4parse = Except.ok (sentinelChatflow 1) ∧
    (runRowChatflow envC4parse).1 = (1, 0) ∧
    single_test_workflow_non_stream_pressure envC4parse = Except.error PyErr.jsonDecode ∧
    (runRowWorkflow envC4parse).1 = (0, 1) :=
  ⟨((C4_failure_paths_amended envC4err).1 "timeout" rfl).1,
   ((C4_failure_paths_amended envC4err).1 "timeout" rfl).2.2.1,
   ((C4_failure_paths_amended envC4parse).2 rfl rfl).1,
   ((C4_failure_paths_amended envC4parse).2 rfl rfl).2.1,
   ((C4_failure_paths_amended envC4parse).2 rfl rfl).2.2.1,
   ((C4_failure_paths_amended envC4parse).2 rfl rfl).2.2.2⟩

/-! ## Claim C5 -/

/-- C5 counterexample: the claim states the scoring fallback uses the FIRST
integer-looking substring and never raises even when none exists.  False on
both counts: on `"10 9"` the code returns `"9"` (the lexicographic maximum of
the digit runs as Python strings) although the first integer-looking
substring is `"10"`, and on an input with no digit run the code raises
`ValueError` from `max()` over an empty list. -/
theorem C5_extract_score_counterexample :
    extract_score_from_string "10 9" = Except.ok (JVal.obj [("score", JVal.str "9")]) ∧
    firstDigitRun "10 9" = some "10" ∧
    ("9" : String) ≠ "10" ∧
    extract_score_from_string "score unknown"
      = Except.error (PyErr.valueError "max() arg is an empty sequence") :=
  ⟨rfl, rfl, by decide, rfl⟩

/-- C5 amended: when the judge content fails to parse as JSON, the chatflow
row falls back to scanning the raw output for digit runs and uses the
LEXICOGRAPHICALLY GREATEST run (Python string `max`, not the first match) as
the score string; when the raw output has no digit run, the fallback raises
`ValueError`, which the enclosing handler converts into the zeroed sentinel
metrics (score 0).  In both cases the row still counts as a success, never as
a row failure. -/
theorem C5_fallback_amended (env : CallEnv) (raw : String) (body : JVal) (ans : String)
    (hh : env.http = HttpOutcome.ok)
    (hb : env.bodyParsed = some body)
    (hans : pyGetItem body "answer" = Except.ok (JVal.str ans))
    (hr : env.refAnswer.length ≠ 0)
    (hj : env.judge = JudgeOutcome.content raw)
    (hp : env.judgeParsed = none)
    (hdur : env.duration ≠ 0) :
    (∀ mx, pyMaxStr (digitRuns raw) = Except.ok mx →
      single_test_chatflow_non_stream_pressure env =
        Except.ok
          { time_consumption := env.duration
            token_num := env.tokens
            TPS := (env.tokens : ℚ) / env.duration
            score := JVal.str mx
            generated_answer := some ans } ∧
      (runRowChatflow env).1 = (1, 0)) ∧
    (digitRuns raw = [] →
      single_test_chatflow_non_stream_pressure env = Except.ok (sentinelChatflow env.duration) ∧
      (runRowChatflow env).1 = (1, 0)) := by
  have hscore : resolveScoreChatflow env = extract_score_from_string raw := by
    unfold resolveScoreChatflow judgeScore
    simp [hr, hj, hp]
  constructor
  · intro mx hmx
    have hext : extract_score_from_string raw
        = Except.ok (JVal.obj [("score", JVal.str mx)]) := by
      unfold extract_score_from_string
      simp [hmx]
    have htry : chatflowTry env =
        Except.ok
          { time_consumption := env.duration
            token_num := env.tokens
            TPS := (env.tokens : ℚ) / env.duration
            score := JVal.str mx
            generated_answer := some ans } := by
      unfold chatflowTry
      simp [hb, hans, hscore, hext, tokenizeAnswer, pyDiv, hdur,
        pyGetItem_single, pyStr, exceptBindOk, exceptBindErr]
    have hc : single_test_chatflow_non_stream_pressure env
        = Except.ok
          { time_consumption := env.duration
            token_num := env.tokens
            TPS := (env.tokens : ℚ) / env.duration
            score := JVal.str mx
            generated_answer := some ans } := by
      unfold single_test_chatflow_non_stream_pressure
      simp [hh, htry]
    refine ⟨hc, ?_⟩
    unfold runRowChatflow
    simp [hc]
  · intro hempty
    have hext : extract_score_from_string raw
        = Except.error (PyErr.valueError "max() arg is an empty sequence") := by
      unfold extract_score_from_string
      simp [hempty, pyMaxStr]
    have htry : chatflowTry env
        = Except.error (PyErr.valueError "max() arg is an empty sequence") := by
      unfold chatflowTry
      simp [hb, hans, hscore, hext, exceptBindOk, exceptBindErr]
    have hc : single_test_chatflow_non_stream_pressure env
        = Except.ok (sentinelChatflow env.duration) := by
      unfold single_test_chatflow_non_stream_pressure
      simp [hh, htry]
    refine ⟨hc, ?_⟩
    unfold runRowChatflow
    simp [hc, sentinelChatflow]

/-- A chatflow row whose judge content does not parse as JSON but contains
the digit runs 9 and 10. -/
def envC5w : CallEnv :=
  { http := HttpOutcome.ok
    bodyParsed := some (JVal.obj [("answer", JVal.str "fine")])
    refAnswer := "ref"
    judge := JudgeOutcome.content "the score is 9 of 10"
    judgeParsed := none
    tokens := 3
    duration := 2 }

/-- C5 witness: the amended theorem applied at a concrete unparseable judge
output containing the digit runs 9 and 10; the row succeeds with score
string `"9"`. -/
theorem C5_fallback_witness :
    single_test_chatflow_non_stream_pressure envC5w =
      Except.ok
        { time_consumption := 2, token_num := 3, TPS := (3 : ℚ) / 2,
          score := JVal.str "9", generated_answer := some "fine" } ∧
    (runRowChatflow envC5w).1 = (1, 0) :=
  (C5_fallback_amended envC5w "the score is 9 of 10"
    (JVal.obj [("answer", JVal.str "fine")]) "fine"
    rfl rfl rfl (by decide) rfl rfl (by simp [envC5w])).1 "9" rfl

/-! ## Claim C6 -/

/-- C6: the judge dispatcher walks the candidate list in exactly the input
order, skips candidates whose provider family is unrecognized (with a logged
warning, continuing rather than aborting), binds the FIRST candidate whose
family is recognized and whose connectivity probe returns HTTP 200 --
returning its record together with the name of the provider-specific scoring
function -- and returns empty when no candidate qualifies.  Stated as: the
dispatcher result equals mapping the handle constructor over
`List.find?` with the bindability predicate. -/
theorem C6_first_bindable_candidate (cands : List ProviderModel) :
    llm_connection_test cands =
      (cands.find? fun c => (familyOf c).isSome && c.probeStatus == 200).bind
        (fun c => (familyOf c).map
          fun fam => { llm_record := c, llm_func := sendMessageName fam }) := by
  induction cands with
  | nil => rfl
  | cons c rest ih =>
    unfold llm_connection_test
    cases hf : familyOf c with
    | none => simp [List.find?, hf, ih]
    | some fam =>
      by_cases hp : c.probeStatus = 200
      · simp [List.find?, hf, hp]
      · simp [List.find?, hf, hp, ih, show (c.probeStatus == 200) = false from
          beq_eq_false_iff_ne.mpr hp]

/-! ## Claim C7 -/

/-- Row 1 of the 3-row chatflow scenario: a successful agent call. -/
def envC7a : CallEnv :=
  { http := HttpOutcome.ok
    bodyParsed := some (JVal.obj [("answer", JVal.str "a1")])
    refAnswer := ""
    judge := JudgeOutcome.content ""
    judgeParsed := none
    tokens := 5
    duration := 1 }

/-- Row 2 of the 3-row chatflow scenario: the agent call raises a timeout. -/
def envC7b : CallEnv :=
  { http := HttpOutcome.err "timeout"
    bodyParsed := none
    refAnswer := ""
    judge := JudgeOutcome.content ""
    judgeParsed := none
    tokens := 0
    duration := 0 }

/-- Row 3 of the 3-row chatflow scenario: a successful agent call. -/
def envC7c : CallEnv :=
  { http := HttpOutcome.ok
    bodyParsed := some (JVal.obj [("answer", JVal.str "a3")])
    refAnswer := ""
    judge := JudgeOutcome.content ""
    judgeParsed := none
    tokens := 4
    duration := 2 }

/-- C7: in the 3-row chatflow batch where exactly row 2 raises a timeout, the
counters do end as `success_count = 2`, `failure_count = 1` -- but the claim
that the RunSummary is then computed over only the 2 successful rows fails on
the code: the coordinator appends the failed row as an
`(index, error)` record to the same results list, and the aggregation step
calls `.get("time_consumption")` on it, so `sum(...)` adds `None` and raises
`TypeError`; no RunSummary is produced at all. -/
theorem C7_error_record_breaks_aggregation :
    (runChatflowBatch [envC7a, envC7b, envC7c]).1 = (2, 1) ∧
    aggregateChatflowResults (runChatflowBatch [envC7a, envC7b, envC7c]).2
      = Except.error PyErr.typeErr :=
  ⟨rfl, rfl⟩

/-! ## Claim C8 -/

/-- C8: aggregating an empty results list fails loudly and never returns a
RunSummary: `sum(...) = 0` and `len(results) = 0`, so the very first average
raises `ZeroDivisionError`, in both the chatflow and the workflow wrapper. -/
theorem C8_empty_aggregation_raises :
    aggregateChatflowResults [] = Except.error PyErr.zeroDivision ∧
    aggregateWorkflowResults [] = Except.error PyErr.zeroDivision :=
  ⟨rfl, rfl⟩

/-! ## Claim C9 -/

/-- C9: a start request on a RUNNING run is rejected idempotently, one on a
SUCCESS run returns the stored result, one on a CANCELLED run is rejected,
and in each of these cases no background execution is scheduled (the decision
is never `scheduled`), so the batch is not re-executed. -/
theorem C9_idempotent_start_requests (r : RecordState) :
    (r.status = TStatus.running →
      run_record (some r) = RunDecision.runningRejection) ∧
    (r.status = TStatus.success →
      run_record (some r) = RunDecision.storedResult r.result) ∧
    (r.status = TStatus.cancelled →
      run_record (some r) = RunDecision.cancelledRejection) ∧
    ((r.status = TStatus.running ∨ r.status = TStatus.success ∨ r.status = TStatus.cancelled) →
      ∀ k, run_record (some r) ≠ RunDecision.scheduled k) := by
  obtain ⟨st, a, res⟩ := r
  cases st <;> simp [run_record]

/-- A RUNNING record. -/
def recRunningW : RecordState :=
  { status := TStatus.running, agent_type := AType.chatflow, result := none }

/-- A SUCCESS record with a stored result. -/
def recSuccessW : RecordState :=
  { status := TStatus.success, agent_type := AType.chatflow, result := some (JVal.num 9) }

/-- A CANCELLED record. -/
def recCancelledW : RecordState :=
  { status := TStatus.cancelled, agent_type := AType.workflow, result := none }

/-- C9 witness: the theorem applied at a concrete RUNNING, SUCCESS and
CANCELLED record. -/
theorem C9_idempotent_start_requests_witness :
    run_record (some recRunningW) = RunDecision.runningRejection ∧
    run_record (some recSuccessW) = RunDecision.storedResult (some (JVal.num 9)) ∧
    run_record (some recCancelledW) = RunDecision.cancelledRejection :=
  ⟨(C9_idempotent_start_requests recRunningW).1 rfl,
   (C9_idempotent_start_requests recSuccessW).2.1 rfl,
   (C9_idempotent_start_requests recCancelledW).2.2.1 rfl⟩

/-! ## Claim C10 -/

/-- C10: a start request on a run in INIT, FAILED or EXPERIMENT status is
neither rejected nor answered from a stored result: it schedules a fresh
background execution of the wrapper matching the record agent type (FAILED
and EXPERIMENT are re-runnable, unlike SUCCESS and CANCELLED). -/
theorem C10_rerunnable_statuses (r : RecordState)
    (h : r.status = TStatus.init ∨ r.status = TStatus.failed ∨ r.status = TStatus.experiment) :
    run_record (some r) = RunDecision.scheduled r.agent_type ∧
    run_record (some r) ≠ RunDecision.runningRejection ∧
    (∀ v, run_record (some r) ≠ RunDecision.storedResult v) ∧
    run_record (some r) ≠ RunDecision.cancelledRejection := by
  obtain ⟨st, a, res⟩ := r
  rcases h with h | h | h <;> subst h <;> simp [run_record]

/-- A FAILED workflow record. -/
def recFailedW : RecordState :=
  { status := TStatus.failed, agent_type := AType.workflow, result := none }

/-- C10 witness: the theorem applied at a concrete FAILED workflow record. -/
theorem C10_rerunnable_statuses_witness :
    run_record (some recFailedW) = RunDecision.scheduled AType.workflow :=
  (C10_rerunnable_statuses recFailedW (Or.inr (Or.inl rfl))).1
